import Mathlib

/-!
# Verification of the AImirror interactive core

Shallow embedding of the three core components of the `ai-mirror` repository:

* `utils/timer.py` — the `PomodoroTimer` class (background work/break countdown),
* `utils/phrases.py` — the novelty-constrained phrase synthesizer `get_phrase`,
* `scripts/ai_mirror.py` — the `AIMirror` session orchestrator (`run` loop,
  `_speak`, `_offline_answer`).

Pure functions become Lean functions; the timer's background thread becomes a
step-indexed execution function reading an interference schedule (the values of
the cross-thread flags `_stop`/`_paused` at each loop iteration); Python
exceptions become `Except`; `random.choice`/`random.random` outcomes become an
explicit oracle record consumed by the phrase synthesizer.
-/

/-! ## Generic string / list helpers mirroring Python primitives -/

/-- Python substring search (`sub in l`) on char lists. -/
def containsSub (sub : List Char) : List Char → Bool
  | [] => sub.isEmpty
  | c :: t => sub.isPrefixOf (c :: t) || containsSub sub t

/-- Python `sub in s` for strings. -/
def strIn (sub s : String) : Bool := containsSub sub.data s.data

theorem containsSub_iff (sub : List Char) (l : List Char) :
    containsSub sub l = true ↔ sub <:+: l := by
  induction l with
  | nil =>
    simp [containsSub, List.isEmpty_iff]
  | cons c t ih =>
    simp [containsSub, List.infix_cons_iff, ih, List.isPrefixOf_iff_prefix]

theorem strIn_iff (sub s : String) : strIn sub s = true ↔ sub.data <:+: s.data := by
  simp [strIn, containsSub_iff]

theorem string_data_append (s t : String) : (s ++ t).data = s.data ++ t.data := by
  cases s; cases t; rfl

/-- Python `collections.deque(maxlen=cap)` append: add on the right, evict the
oldest entries on the left while over capacity. -/
def dqAppend (cap : Nat) (q : List String) (x : String) : List String :=
  let q' := q ++ [x]
  if cap < q'.length then q'.drop (q'.length - cap) else q'

theorem dqAppend_length_le (cap : Nat) (q : List String) (x : String)
    (h : q.length ≤ cap) : (dqAppend cap q x).length ≤ cap := by
  unfold dqAppend
  simp only [List.length_append, List.length_singleton]
  split <;> simp <;> omega

theorem dqAppend_full (cap : Nat) (q : List String) (x : String)
    (hpos : 0 < cap) (h : q.length = cap) :
    dqAppend cap q x = q.drop 1 ++ [x] := by
  unfold dqAppend
  simp only [List.length_append, List.length_singleton]
  rw [if_pos (by omega)]
  have : q.length + 1 - cap = 1 := by omega
  rw [this, List.drop_append_of_le_length (by omega)]

/-- Digits of a decimal string, as `int` would read them (no sign). -/
def digitsToNat (l : List Char) : Nat :=
  l.foldl (fun a c => 10 * a + (c.toNat - 48)) 0

/-- Python `s.lower()` (ASCII case mapping, which is all the dispatch needs). -/
def pyLower (s : String) : String := ⟨s.data.map Char.toLower⟩

/-- Python `s.strip()`: drop leading and trailing whitespace. -/
def pyStrip (s : String) : String :=
  ⟨((s.data.dropWhile Char.isWhitespace).reverse.dropWhile Char.isWhitespace).reverse⟩

/-- Python `s.startswith(pre)`. -/
def pyStartsWith (s pre : String) : Bool := pre.data.isPrefixOf s.data

/-- Python `time.strftime` two-digit zero padding used by `%H` / `%M`. -/
def pad2 (n : Nat) : String :=
  if n < 10 then "0" ++ toString n else toString n

/-- The `%H:%M` clock string produced by `time.strftime` in
`_offline_answer`; hour and minute are always rendered two digits wide. -/
def fmtHM (h m : Nat) : String := pad2 h ++ ":" ++ pad2 m

/-- Does the string contain a decimal digit? -/
def hasDigit (s : String) : Bool := s.data.any Char.isDigit

theorem pad2_hasDigit : ∀ n, n < 100 → ((pad2 n).data.any Char.isDigit) = true := by
  decide

theorem fmtHM_hasDigit (h m : Nat) (hh : h < 24) : hasDigit (fmtHM h m) = true := by
  unfold hasDigit fmtHM
  rw [string_data_append, string_data_append, List.any_append, List.any_append]
  rw [pad2_hasDigit h (by omega)]
  rfl

/-! ## Countdown timer (`utils/timer.py`, class `PomodoroTimer`)

The timer runs `_run` on a daemon thread.  The thread reads the cross-thread
flags `_stop` / `_paused` once per iteration of the `while self._remaining > 0`
loop; we model the values those reads observe as an interference schedule
`σ : Nat → TFlags` indexed by a global loop-iteration counter.  Callback
invocations (`on_tick`, `on_phase`, `on_done`) are recorded as events. -/

/-- Values of `self._stop` and `self._paused` observed at one loop iteration. -/
structure TFlags where
  stopReq : Bool
  pausedReq : Bool
deriving DecidableEq, Repr

/-- Notifications fired by the timer thread. -/
inductive TEv
  | phase (p : String)
  | tick (remaining : Nat) (p : String)
  | done
deriving DecidableEq, Repr

/-- Result of `PomodoroTimer._countdown`: `completed` is the Python return
value, `phaseF`/`remainingF` the values of `self._phase`/`self._remaining`
when it returns, `evs` the notifications fired, `next` the loop counter. -/
structure CdOut where
  completed : Bool
  phaseF : String
  remainingF : Nat
  evs : List TEv
  next : Nat
deriving DecidableEq, Repr

/-- The `while self._remaining > 0` loop of `_countdown`, with one unit of
fuel per iteration (the Python loop can run unboundedly long under an
adversarial pause schedule; all theorems supply enough fuel).
Source (`timer.py` lines 36-41):
```
while self._remaining > 0:
    if self._stop: self._phase = "idle"; return False
    if not self._paused:
        self._remaining -= 1
        if self._on_tick: self._on_tick(self._remaining, self._phase)
    time.sleep(1)
```
-/
def cdLoop (σ : Nat → TFlags) (ph : String) : Nat → Nat → Nat → Option CdOut
  | 0, _, _ => none
  | fuel + 1, k, r =>
    if r = 0 then some ⟨true, ph, 0, [], k⟩
    else if (σ k).stopReq then some ⟨false, "idle", r, [], k + 1⟩
    else if (σ k).pausedReq then cdLoop σ ph fuel (k + 1) r
    else
      match cdLoop σ ph fuel (k + 1) (r - 1) with
      | none => none
      | some o => some ⟨o.completed, o.phaseF, o.remainingF, TEv.tick (r - 1) ph :: o.evs, o.next⟩

/-- Model of `PomodoroTimer._countdown(seconds, phase)`: sets `self._phase = phase`,
fires `on_phase(phase)`, sets `self._remaining = seconds`, then loops. -/
def countdown (σ : Nat → TFlags) (fuel k seconds : Nat) (ph : String) : Option CdOut :=
  match cdLoop σ ph fuel k seconds with
  | none => none
  | some o => some ⟨o.completed, o.phaseF, o.remainingF, TEv.phase ph :: o.evs, o.next⟩

/-- Final thread-visible state and notifications of `PomodoroTimer._run`. -/
structure RunOut where
  phaseF : String
  remainingF : Nat
  evs : List TEv
  next : Nat
deriving DecidableEq, Repr

/-- The `for c in range(cycles)` loop of `_run` (`timer.py` lines 25-30):
```
for c in range(cycles):
    if not self._countdown(work_s, "work"):  return
    if c < cycles-1:
        if not self._countdown(break_s, "break"): return
if self._on_done: self._on_done()
```
`n` counts the remaining `for` iterations; `ph`/`r` are the current values of
`self._phase`/`self._remaining` (only visible in the result when no countdown
runs, i.e. `cycles = 0`). -/
def runCycles (σ : Nat → TFlags) (fuel work_s break_s : Nat) :
    Nat → Nat → String → Nat → Option RunOut
  | 0, k, ph, r => some ⟨ph, r, [TEv.done], k⟩
  | n + 1, k, _, _ =>
    match countdown σ fuel k work_s "work" with
    | none => none
    | some o =>
      if o.completed then
        if n = 0 then some ⟨o.phaseF, o.remainingF, o.evs ++ [TEv.done], o.next⟩
        else
          match countdown σ fuel o.next break_s "break" with
          | none => none
          | some o2 =>
            if o2.completed then
              match runCycles σ fuel work_s break_s n o2.next o2.phaseF o2.remainingF with
              | none => none
              | some o3 => some ⟨o3.phaseF, o3.remainingF, o.evs ++ o2.evs ++ o3.evs, o3.next⟩
            else some ⟨o2.phaseF, o2.remainingF, o.evs ++ o2.evs, o2.next⟩
      else some ⟨o.phaseF, o.remainingF, o.evs, o.next⟩

/-- Model of `PomodoroTimer._run(work_s, break_s, cycles)` started on a fresh thread:
the object starts at `_phase = "idle"`, `_remaining = 0` (`__init__`). -/
def runTimer (σ : Nat → TFlags) (fuel work_s break_s cycles : Nat) : Option RunOut :=
  runCycles σ fuel work_s break_s cycles 0 "idle" 0

/-- The interference-free schedule: `stop()`/`pause()` are never called. -/
def sigma0 : Nat → TFlags := fun _ => ⟨false, false⟩

/-- A schedule on which `self._stop` is already observed `True` everywhere
(a `stop()` request issued before the next tick boundary). -/
def sigmaStop : Nat → TFlags := fun _ => ⟨true, false⟩

/-- Lock-protected object state of `PomodoroTimer`: `tAlive` models
`self._t is not None and self._t.is_alive()`. -/
structure PT where
  tAlive : Bool
  stopFlag : Bool
  pausedFlag : Bool
  remaining : Nat
  phase : String
deriving DecidableEq, Repr

/-- Model of `PomodoroTimer.__init__`. -/
def PT.init : PT := ⟨false, false, false, 0, "idle"⟩

/-- Model of `PomodoroTimer.start` (`timer.py` lines 16-23): under the lock, reject if
`is_running()`, otherwise clear `_stop`/`_paused` and spawn the thread. -/
def PT.start (s : PT) (_work_min _break_min _cycles : Nat) : Bool × PT :=
  if s.tAlive then (false, s)
  else (true, { s with stopFlag := false, pausedFlag := false, tAlive := true })

/-- Model of `PomodoroTimer.pause`: `self._paused = True`. -/
def PT.pause (s : PT) : PT := { s with pausedFlag := true }

/-- Model of `PomodoroTimer.resume`: `self._paused = False`. -/
def PT.resume (s : PT) : PT := { s with pausedFlag := false }

/-- Model of `PomodoroTimer.stop`: `self._stop = True` — and nothing else; the phase
only changes when a running `_countdown` loop observes the flag. -/
def PT.stop (s : PT) : PT := { s with stopFlag := true }

/-- The tick notifications of an uninterrupted countdown from `r`:
`tick (r-1), tick (r-2), …, tick 0`. -/
def tickEvs (r : Nat) (ph : String) : List TEv :=
  match r with
  | 0 => []
  | n + 1 => TEv.tick n ph :: tickEvs n ph

/-- Phase names carried by the phase-start notifications of a trace. -/
def phasesOf (evs : List TEv) : List String :=
  evs.filterMap fun e => match e with | TEv.phase p => some p | _ => none

/-- Number of completion notifications in a trace. -/
def doneCount (evs : List TEv) : Nat :=
  evs.countP fun e => match e with | TEv.done => true | _ => false

/-- The alternating phase sequence `work, break, work, …` with `c` `work`
entries and `c - 1` `break` entries. -/
def altSeq : Nat → List String
  | 0 => []
  | 1 => ["work"]
  | n + 2 => "work" :: "break" :: altSeq (n + 1)

/-! ### The interference-free run (for C1) -/

theorem cdLoop_sigma0 (ph : String) :
    ∀ r fuel k, r + 1 ≤ fuel →
      cdLoop sigma0 ph fuel k r = some ⟨true, ph, 0, tickEvs r ph, k + r⟩ := by
  intro r
  induction r with
  | zero =>
    intro fuel k h
    match fuel, h with
    | f + 1, _ => simp [cdLoop, tickEvs]
  | succ n ih =>
    intro fuel k h
    match fuel, h with
    | f + 1, h =>
      have hf : n + 1 ≤ f := by omega
      simp [cdLoop, sigma0, ih f (k + 1) hf, tickEvs]
      omega

theorem countdown_sigma0 (ph : String) (s fuel k : Nat) (h : s + 1 ≤ fuel) :
    countdown sigma0 fuel k s ph =
      some ⟨true, ph, 0, TEv.phase ph :: tickEvs s ph, k + s⟩ := by
  simp [countdown, cdLoop_sigma0 ph s fuel k h]

/-- Expected notification trace of an uninterrupted `_run` with `c` cycles. -/
def cycleEvs (ws bs : Nat) : Nat → List TEv
  | 0 => [TEv.done]
  | 1 => (TEv.phase "work" :: tickEvs ws "work") ++ [TEv.done]
  | n + 2 => (TEv.phase "work" :: tickEvs ws "work") ++
             ((TEv.phase "break" :: tickEvs bs "break") ++ cycleEvs ws bs (n + 1))

theorem runCycles_sigma0 (ws bs fuel : Nat) (hw : ws + 1 ≤ fuel) (hb : bs + 1 ≤ fuel) :
    ∀ n k ph r, runCycles sigma0 fuel ws bs (n + 1) k ph r =
      some ⟨"work", 0, cycleEvs ws bs (n + 1), k + (n + 1) * ws + n * bs⟩ := by
  intro n
  induction n with
  | zero =>
    intro k ph r
    simp [runCycles, countdown_sigma0 _ _ _ _ hw, cycleEvs]
  | succ m ih =>
    intro k ph r
    rw [runCycles.eq_2]
    simp only [countdown_sigma0 _ _ _ _ hw, countdown_sigma0 _ _ _ _ hb,
      ih, Nat.succ_ne_zero, if_false, cycleEvs]
    simp
    ring

theorem phasesOf_cons (e : TEv) (l : List TEv) :
    phasesOf (e :: l) =
      (match e with | TEv.phase p => [p] | _ => []) ++ phasesOf l := by
  cases e <;> simp [phasesOf]

theorem doneCount_cons (e : TEv) (l : List TEv) :
    doneCount (e :: l) =
      (match e with | TEv.done => 1 | _ => 0) + doneCount l := by
  cases e <;> simp [doneCount, List.countP_cons, Nat.add_comm]

theorem phasesOf_tickEvs (r : Nat) (ph : String) : phasesOf (tickEvs r ph) = [] := by
  induction r with
  | zero => rfl
  | succ n ih =>
    rw [tickEvs, phasesOf_cons, ih]
    rfl

theorem doneCount_tickEvs (r : Nat) (ph : String) : doneCount (tickEvs r ph) = 0 := by
  induction r with
  | zero => rfl
  | succ n ih =>
    rw [tickEvs, doneCount_cons, ih]

theorem phasesOf_append (a b : List TEv) : phasesOf (a ++ b) = phasesOf a ++ phasesOf b := by
  simp [phasesOf]

theorem doneCount_append (a b : List TEv) : doneCount (a ++ b) = doneCount a + doneCount b := by
  simp [doneCount, List.countP_append]

theorem phasesOf_cycleEvs (ws bs : Nat) :
    ∀ n, phasesOf (cycleEvs ws bs (n + 1)) = altSeq (n + 1) := by
  intro n
  induction n with
  | zero =>
    show phasesOf (cycleEvs ws bs 1) = altSeq 1
    rw [cycleEvs, altSeq]
    simp only [phasesOf_append, phasesOf_cons, phasesOf_tickEvs]
    rfl
  | succ m ih =>
    show phasesOf (cycleEvs ws bs (m + 2)) = altSeq (m + 2)
    rw [cycleEvs, altSeq]
    simp only [phasesOf_append, phasesOf_cons, phasesOf_tickEvs, ih]
    rfl

theorem doneCount_cycleEvs (ws bs : Nat) :
    ∀ n, doneCount (cycleEvs ws bs (n + 1)) = 1 := by
  intro n
  induction n with
  | zero =>
    show doneCount (cycleEvs ws bs 1) = 1
    rw [cycleEvs, doneCount_append, doneCount_cons, doneCount_tickEvs]
    rfl
  | succ m ih =>
    show doneCount (cycleEvs ws bs (m + 2)) = 1
    rw [cycleEvs, doneCount_append, doneCount_append, doneCount_cons, doneCount_cons,
      doneCount_tickEvs, doneCount_tickEvs, ih]
    rfl

theorem cycleEvs_ne_nil (ws bs : Nat) : ∀ n, cycleEvs ws bs n ≠ [] := by
  intro n
  match n with
  | 0 => simp [cycleEvs]
  | 1 => simp [cycleEvs]
  | m + 2 => simp [cycleEvs]

theorem getLast_cycleEvs (ws bs : Nat) :
    ∀ n, (cycleEvs ws bs n).getLast? = some TEv.done := by
  intro n
  induction n using Nat.strong_induction_on with
  | _ n ih =>
    match n with
    | 0 => rfl
    | 1 =>
      rw [cycleEvs, List.getLast?_append_of_ne_nil _ (by simp)]
      rfl
    | m + 2 =>
      rw [cycleEvs, List.getLast?_append_of_ne_nil _ (by simp [cycleEvs_ne_nil]),
        List.getLast?_append_of_ne_nil _ (cycleEvs_ne_nil ws bs (m + 1))]
      exact ih (m + 1) (by omega)

theorem altSeq_counts : ∀ n, (altSeq (n + 1)).count "work" = n + 1 ∧
    (altSeq (n + 1)).count "break" = n := by
  intro n
  induction n with
  | zero => constructor <;> rfl
  | succ m ih =>
    show (altSeq (m + 2)).count "work" = m + 2 ∧ (altSeq (m + 2)).count "break" = m + 1
    rw [altSeq]
    simp [List.count_cons, ih.1, ih.2]

/-! ### Claim C1 -/

/-- C1 (counterexample): A 1-cycle run to natural completion fires the
claimed notifications, but leaves `_phase = "work"`: `_run` never sets the
phase to `"idle"` on normal completion (`timer.py` line 30 only calls
`self._on_done()`). -/
theorem timer_completion_phase_cex :
    runTimer sigma0 10 1 1 1 =
      some ⟨"work", 0, [TEv.phase "work", TEv.tick 0 "work", TEv.done], 1⟩ ∧
    ("work" : String) ≠ "idle" := by
  exact ⟨rfl, by decide⟩

/-- C1 (amended): For every `start(w, b, c)` with `c ≥ 1` that runs to
natural completion with no interference, the phase notifications are exactly
`work, break, work, …` with `c` `work` entries and `c - 1` `break` entries,
followed by exactly one completion notification (which is the last
notification); on completion the phase remains the final `"work"` phase with
`remaining = 0` — it is *not* reset to idle. -/
theorem timer_run_sequence_amended (w b c fuel : Nat) (hc : 1 ≤ c)
    (hw : w + 1 ≤ fuel) (hb : b + 1 ≤ fuel) :
    ∃ out, runTimer sigma0 fuel w b c = some out ∧
      phasesOf out.evs = altSeq c ∧
      (phasesOf out.evs).count "work" = c ∧
      (phasesOf out.evs).count "break" = c - 1 ∧
      doneCount out.evs = 1 ∧
      out.evs.getLast? = some TEv.done ∧
      out.phaseF = "work" ∧ out.remainingF = 0 := by
  obtain ⟨n, rfl⟩ : ∃ n, c = n + 1 := ⟨c - 1, by omega⟩
  refine ⟨_, runCycles_sigma0 w b fuel hw hb n 0 "idle" 0, ?_, ?_, ?_, ?_, ?_, rfl, rfl⟩
  · exact phasesOf_cycleEvs w b n
  · rw [phasesOf_cycleEvs]; exact (altSeq_counts n).1
  · rw [phasesOf_cycleEvs]; simpa using (altSeq_counts n).2
  · exact doneCount_cycleEvs w b n
  · exact getLast_cycleEvs w b (n + 1)

theorem timer_run_sequence_amended_witness :
    ∃ out, runTimer sigma0 10 2 1 2 = some out ∧
      phasesOf out.evs = altSeq 2 ∧
      (phasesOf out.evs).count "work" = 2 ∧
      (phasesOf out.evs).count "break" = 2 - 1 ∧
      doneCount out.evs = 1 ∧
      out.evs.getLast? = some TEv.done ∧
      out.phaseF = "work" ∧ out.remainingF = 0 :=
  timer_run_sequence_amended 2 1 2 10 (by decide) (by decide) (by decide)

/-! ### Claim C4 -/

/-- C4 (counterexample): After a run completes naturally the thread is
dead and the phase is `"work"`; a subsequent `stop()` only sets `_stop`
(`timer.py` lines 46-47), so the phase never becomes idle: there is no tick
boundary left to observe the flag. -/
theorem timer_stop_after_done_cex :
    runTimer sigma0 10 1 0 1 =
      some ⟨"work", 0, [TEv.phase "work", TEv.tick 0 "work", TEv.done], 1⟩ ∧
    (PT.stop ⟨false, false, false, 0, "work"⟩).phase = "work" ∧
    (PT.stop ⟨false, false, false, 0, "work"⟩).phase ≠ "idle" := by
  exact ⟨rfl, rfl, by decide⟩

/-- C4 (amended): `stop()` itself only sets the `_stop` flag.  A running
countdown that still has a tick-boundary check pending observes the flag at
that check, sets the phase to idle and returns, firing no further tick,
phase-start, or completion notification; a `stop` issued before the run's next
phase entry still lets that phase fire its phase-start notification (the
check comes after `on_phase`), after which the run terminates idle. -/
theorem timer_stop_amended :
    (∀ s : PT, PT.stop s = { s with stopFlag := true }) ∧
    (∀ (σ : Nat → TFlags) (ph : String) (fuel k r : Nat),
      (σ k).stopReq = true → 0 < r →
        cdLoop σ ph (fuel + 1) k r = some ⟨false, "idle", r, [], k + 1⟩) ∧
    (∀ (σ : Nat → TFlags) (fuel ws bs n k : Nat) (ph : String) (r : Nat),
      (∀ j, (σ j).stopReq = true) → 0 < ws → 0 < fuel →
        runCycles σ fuel ws bs (n + 1) k ph r =
          some ⟨"idle", ws, [TEv.phase "work"], k + 1⟩) := by
  refine ⟨fun s => rfl, ?_, ?_⟩
  · intro σ ph fuel k r hstop hr
    simp [cdLoop, Nat.pos_iff_ne_zero.mp hr, hstop]
  · intro σ fuel ws bs n k ph r hstop hws hfuel
    obtain ⟨f, rfl⟩ : ∃ f, fuel = f + 1 := ⟨fuel - 1, by omega⟩
    rw [runCycles.eq_2]
    have hcd : cdLoop σ "work" (f + 1) k ws = some ⟨false, "idle", ws, [], k + 1⟩ := by
      simp [cdLoop, Nat.pos_iff_ne_zero.mp hws, hstop k]
    simp [countdown, hcd]

theorem timer_stop_amended_witness :
    PT.stop PT.init = { PT.init with stopFlag := true } ∧
    cdLoop sigmaStop "work" 5 0 3 = some ⟨false, "idle", 3, [], 1⟩ ∧
    runCycles sigmaStop 5 2 2 1 0 "idle" 0 = some ⟨"idle", 2, [TEv.phase "work"], 1⟩ :=
  ⟨timer_stop_amended.1 PT.init,
   timer_stop_amended.2.1 sigmaStop "work" 4 0 3 rfl (by decide),
   timer_stop_amended.2.2 sigmaStop 5 2 2 0 0 "idle" 0 (fun _ => rfl) (by decide) (by decide)⟩

/-! ### Claim C6 -/

/-- C6 (confirmed): `start` called while the countdown thread is alive
returns `False` and leaves every field of the timer state unchanged
(`timer.py` line 18: `if self.is_running(): return False`). -/
theorem timer_start_while_running (s : PT) (w b c : Nat) (h : s.tAlive = true) :
    PT.start s w b c = (false, s) := by
  simp [PT.start, h]

theorem timer_start_while_running_witness :
    PT.start ⟨true, false, false, 7, "work"⟩ 1 1 1 =
      (false, ⟨true, false, false, 7, "work"⟩) :=
  timer_start_while_running ⟨true, false, false, 7, "work"⟩ 1 1 1 rfl

/-! ### Claim C7 -/

/-- C7 (confirmed): While `_paused` is observed true (and `_stop` false)
a loop iteration leaves `_remaining` unchanged and fires no notification;
`pause()` immediately followed by `resume()` leaves `_remaining` (and every
field except the `_paused` flag) unchanged; `pause()` when already paused and
`resume()` when not paused are no-ops. -/
theorem timer_pause_freeze :
    (∀ (σ : Nat → TFlags) (ph : String) (fuel k r : Nat),
      (σ k).stopReq = false → (σ k).pausedReq = true → 0 < r →
        cdLoop σ ph (fuel + 1) k r = cdLoop σ ph fuel (k + 1) r) ∧
    (∀ s : PT, (PT.resume (PT.pause s)).remaining = s.remaining ∧
        PT.resume (PT.pause s) = { s with pausedFlag := false }) ∧
    (∀ s : PT, s.pausedFlag = true → PT.pause s = s) ∧
    (∀ s : PT, s.pausedFlag = false → PT.resume s = s) := by
  refine ⟨?_, fun s => ⟨rfl, rfl⟩, ?_, ?_⟩
  · intro σ ph fuel k r hstop hpause hr
    simp [cdLoop, Nat.pos_iff_ne_zero.mp hr, hstop, hpause]
  · intro s h
    cases s
    simp_all [PT.pause]
  · intro s h
    cases s
    simp_all [PT.resume]

theorem timer_pause_freeze_witness :
    cdLoop (fun _ => ⟨false, true⟩) "work" 4 0 2 =
      cdLoop (fun _ => ⟨false, true⟩) "work" 3 1 2 ∧
    (PT.resume (PT.pause ⟨true, false, false, 9, "work"⟩)).remaining = 9 ∧
    PT.pause ⟨true, false, true, 9, "work"⟩ = ⟨true, false, true, 9, "work"⟩ ∧
    PT.resume ⟨true, false, false, 9, "work"⟩ = ⟨true, false, false, 9, "work"⟩ :=
  ⟨timer_pause_freeze.1 (fun _ => ⟨false, true⟩) "work" 3 0 2 rfl rfl (by decide),
   (timer_pause_freeze.2.1 ⟨true, false, false, 9, "work"⟩).1,
   timer_pause_freeze.2.2.1 ⟨true, false, true, 9, "work"⟩ rfl,
   timer_pause_freeze.2.2.2 ⟨true, false, false, 9, "work"⟩ rfl⟩

/-! ### Claim C10 -/

/-- C10 (confirmed): A successful `start` (thread not alive) clears the
`_stop` and `_paused` flags before spawning the thread, so the new run is
never born paused or pre-stopped; consequently the first loop iteration of
the new countdown, observing clear flags, decrements the remaining seconds
and fires the first tick notification. -/
theorem timer_start_clears_flags :
    (∀ (s : PT) (w b c : Nat), s.tAlive = false →
      PT.start s w b c =
        (true, { s with stopFlag := false, pausedFlag := false, tAlive := true })) ∧
    (∀ (σ : Nat → TFlags) (fuel k w : Nat) (ph : String),
      (σ k).stopReq = false → (σ k).pausedReq = false →
        countdown σ (fuel + 2) k (w + 1) ph =
          match cdLoop σ ph (fuel + 1) (k + 1) w with
          | none => none
          | some o => some ⟨o.completed, o.phaseF, o.remainingF,
              TEv.phase ph :: TEv.tick w ph :: o.evs, o.next⟩) := by
  constructor
  · intro s w b c h
    simp [PT.start, h]
  · intro σ fuel k w ph hstop hpause
    cases h : cdLoop σ ph (fuel + 1) (k + 1) w with
    | none =>
      unfold countdown
      rw [cdLoop.eq_2]
      simp [hstop, hpause, h]
    | some o =>
      unfold countdown
      rw [cdLoop.eq_2]
      simp [hstop, hpause, h]

theorem timer_start_clears_flags_witness :
    PT.start ⟨false, true, true, 3, "work"⟩ 25 5 1 =
      (true, ⟨true, false, false, 3, "work"⟩) ∧
    countdown sigma0 3 0 2 "work" =
      match cdLoop sigma0 "work" 2 1 1 with
      | none => none
      | some o => some ⟨o.completed, o.phaseF, o.remainingF,
          TEv.phase "work" :: TEv.tick 1 "work" :: o.evs, o.next⟩ :=
  ⟨timer_start_clears_flags.1 ⟨false, true, true, 3, "work"⟩ 25 5 1 rfl,
   timer_start_clears_flags.2 sigma0 1 0 1 "work" rfl rfl⟩

/-! ## Phrase synthesizer (`utils/phrases.py`)

`random.choice(lst)` outcomes are modelled by an oracle index `i`, the chosen
element being `lst[i % len(lst)]`; `random.random() < p` outcomes are modelled
by oracle booleans.  The module-global deque `_RECENT` (maxlen 24) is threaded
explicitly; `get_phrase` returns the line together with the updated memory. -/

/-- Model of `random.choice(l)` with oracle index `i` (pools are never empty). -/
def pick (l : List String) (i : Nat) : String := l.getD (i % l.length) ""

/-- Model of `random.choice(l)` for a list of numbers. -/
def pickNat (l : List Nat) (i : Nat) : Nat := l.getD (i % l.length) 0

/-- Model of `random.choice(ACTIONS)` — templates are functions of the `{len}` slot. -/
def pickTpl (l : List (Nat → String)) (i : Nat) : Nat → String :=
  l.getD (i % l.length) (fun _ => "")

def HAPPY : List String :=
  ["Love that vibe", "That smile suits you", "Nice energy",
   "Mood looks great", "Looking upbeat"]

def SURPRISED : List String :=
  ["Something unexpected?", "Caught off guard?", "Surprise face, huh?"]

def ANGRY : List String :=
  ["Anger is just energy", "Strong focus incoming", "Let’s channel it"]

def SAD : List String :=
  ["Let’s keep it gentle", "Small steps still count", "Steady and kind"]

def NEUTRAL : List String :=
  ["Ready when you are", "Calm and focused", "I’m with you"]

/-- The `OPENERS` dict; `none` for keys not present. -/
def OPENERS : String → Option (List String)
  | "morning" => some ["Good morning", "Fresh start", "New day energy"]
  | "afternoon" => some ["Good afternoon", "Midday momentum", "Keeping pace"]
  | "evening" => some ["Good evening", "Winding down with focus", "Evening clarity"]
  | "night" => some ["Late but steady", "Quiet hours focus", "Night mode"]
  | _ => none

/-- Model of `ACTIONS`, each entry `.format(len=n)`-ed over the duration slot. -/
def ACTIONS : List (Nat → String) :=
  [fun n => "Want a " ++ toString n ++ "-minute focus block?",
   fun n => "Shall I set a " ++ toString n ++ "-minute timer?",
   fun _ => "How about a tiny next step?",
   fun _ => "Want a two-minute micro-plan?",
   fun _ => "Prefer a quick summary of today?"]

def TAILS_PEOPLE_0 : List String := ["It’s just us here.", "Room is all yours."]

def TAILS_PEOPLE_1 : List String :=
  ["Looks like there’s someone with you.", "Seems you’re not alone."]

def TAILS_PEOPLE_MANY : List String := ["I see a busy background.", "Looks lively behind you."]

/-- Model of `_people_tail` (`phrases.py` lines 80-87). -/
def peopleTail (people : Option Int) (i : Nat) : String :=
  match people with
  | none => ""
  | some p =>
    if p ≤ 0 then pick TAILS_PEOPLE_0 i
    else if p = 1 then pick TAILS_PEOPLE_1 i
    else pick TAILS_PEOPLE_MANY i

/-- Model of `_motion_tail` (`phrases.py` lines 89-98); motion is a real in [0,1],
modelled with rationals so the threshold comparisons stay exact. -/
def motionTail (motion : Option ℚ) : String :=
  match motion with
  | none => ""
  | some m =>
    if 22 / 100 < m then "Quite a bit of movement behind you."
    else if 12 / 100 < m then "Some activity in the background."
    else if m < 5 / 100 then "Background looks calm."
    else ""

/-- Model of `_choose_nonrepeat` (`phrases.py` lines 100-103): prefer candidates not in
the recent memory, falling back to the whole pool when all are recent. -/
def chooseNonrepeat (cands recent : List String) (i : Nat) : String :=
  let novel := cands.filter fun c => !(recent.contains c)
  if novel.isEmpty then pick cands i else pick novel i

/-- Model of `_emotion_bucket` (`phrases.py` lines 105-110). -/
def emotionBucket (em : String) : List String :=
  if em = "happy" then HAPPY
  else if em = "surprised" then SURPRISED
  else if em = "angry" then ANGRY
  else if em = "sad" then SAD
  else NEUTRAL

/-- The `ctx` dict passed to `get_phrase` (keys absent ↦ `none`). -/
structure Ctx where
  emotion : Option String := none
  people : Option Int := none
  motion : Option ℚ := none
  tod : Option String := none
  name : Option String := none

/-- Python `ctx.get(k) or default`: `None` and the empty string are falsy. -/
def orDefault (v : Option String) (d : String) : String :=
  match v with
  | none => d
  | some s => if s = "" then d else s

/-- One outcome of every random draw `get_phrase` can make (initial draws and
the single novelty retry). -/
structure Draws where
  lenChoice : Nat
  openerChoice : Nat
  affectChoice : Nat
  actionChoice : Nat
  shuffle : Bool
  peopleChoice : Nat
  openerChoice2 : Nat
  affectChoice2 : Nat
  keepLen : Bool
  lenChoice2 : Nat
  actionChoice2 : Nat

/-- Python `sep.join(parts)`. -/
def pyJoin (sep : String) : List String → String
  | [] => ""
  | [x] => x
  | x :: y :: t => x ++ sep ++ pyJoin sep (y :: t)

/-- Assembly step of `get_phrase` (`phrases.py` lines 139-151): the three
parts, the optional 35%-probability swap of the middle parts (`shuffle`), the
optional tail, joined by single spaces. -/
def mkLine (opener nm affect action : String) (shuffle : Bool) (tails : List String) : String :=
  let p1 := opener ++ ", " ++ nm ++ "."
  let pa := affect ++ "."
  let parts := if shuffle then [p1, action, pa] else [p1, pa, action]
  let parts := if tails.isEmpty then parts else parts ++ [pyJoin " " tails]
  pyJoin " " parts

/-- The two tail fragments, empty ones dropped (`phrases.py` lines 135-136). -/
def tailsOf (ctx : Ctx) (rand : Draws) : List String :=
  [peopleTail ctx.people rand.peopleChoice, motionTail ctx.motion].filter fun t => !(t == "")

/-- The first assembled line of `get_phrase` (`phrases.py` lines 119-151). -/
def draw1 (rand : Draws) (ctx : Ctx) : String :=
  let nm := orDefault ctx.name "there"
  let tod := orDefault ctx.tod "day"
  let emotion := orDefault ctx.emotion "neutral"
  let length := pickNat [10, 15, 20, 25] rand.lenChoice
  let openerPool := (OPENERS tod).getD ["Let\x27s focus"]
  let affectPool := emotionBucket emotion
  let opener := pick openerPool rand.openerChoice
  let affect := pick affectPool rand.affectChoice
  let action := pickTpl ACTIONS rand.actionChoice length
  mkLine opener nm affect action rand.shuffle (tailsOf ctx rand)

/-- The single regenerated line after a novelty collision (`phrases.py` lines
154-161): fresh opener draw, affect via `_choose_nonrepeat`, action redrawn
with the duration kept (p = 1/2) or redrawn from `{12, 18, 30}`; the parts are
reassembled in fixed order (no shuffle) with the same tails. -/
def draw2 (rand : Draws) (ctx : Ctx) (recent : List String) : String :=
  let nm := orDefault ctx.name "there"
  let tod := orDefault ctx.tod "day"
  let emotion := orDefault ctx.emotion "neutral"
  let length := pickNat [10, 15, 20, 25] rand.lenChoice
  let openerPool := (OPENERS tod).getD ["Let\x27s focus"]
  let affectPool := emotionBucket emotion
  let opener := pick openerPool rand.openerChoice2
  let affect := chooseNonrepeat affectPool recent rand.affectChoice2
  let len2 := if rand.keepLen then length else pickNat [12, 18, 30] rand.lenChoice2
  let action := pickTpl ACTIONS rand.actionChoice2 len2
  mkLine opener nm affect action false (tailsOf ctx rand)

/-- Model of `get_phrase(ctx)` (`phrases.py` lines 114-164) with the module deque
`_RECENT` threaded: returns the line and the updated memory.  The novelty
guard regenerates exactly once; the final line is remembered unconditionally. -/
def getPhrase (rand : Draws) (ctx : Ctx) (recent : List String) : String × List String :=
  let line := draw1 rand ctx
  let final := if recent.contains line then draw2 rand ctx recent else line
  (final, dqAppend 24 recent final)

/-! ### Claims C8 and C9 -/

theorem pyJoin_cons_data (sep x : String) (l : List String) :
    ∃ t, (pyJoin sep (x :: l)).data = x.data ++ t := by
  cases l with
  | nil => exact ⟨[], by simp [pyJoin]⟩
  | cons y t =>
    exact ⟨sep.data ++ (pyJoin sep (y :: t)).data, by simp [pyJoin, string_data_append]⟩

theorem mkLine_data (o nm a act : String) (sh : Bool) (tails : List String) :
    ∃ t, (mkLine o nm a act sh tails).data =
      o.data ++ ", ".data ++ nm.data ++ ".".data ++ t := by
  have key : ∀ rest, ∃ t, (pyJoin " " ((o ++ ", " ++ nm ++ ".") :: rest)).data =
      o.data ++ ", ".data ++ nm.data ++ ".".data ++ t := by
    intro rest
    obtain ⟨t, ht⟩ := pyJoin_cons_data " " (o ++ ", " ++ nm ++ ".") rest
    refine ⟨t, ?_⟩
    rw [ht]
    simp [string_data_append]
  have shape : ∃ rest, mkLine o nm a act sh tails =
      pyJoin " " ((o ++ ", " ++ nm ++ ".") :: rest) := by
    unfold mkLine
    cases sh <;> by_cases h : tails.isEmpty <;> simp [h] <;> try exact ⟨_, rfl⟩
  obtain ⟨rest, hrest⟩ := shape
  rw [hrest]
  exact key rest

theorem mkLine_ne_empty (o nm a act : String) (sh : Bool) (tails : List String) :
    mkLine o nm a act sh tails ≠ "" := by
  obtain ⟨t, ht⟩ := mkLine_data o nm a act sh tails
  intro hc
  have hd : (mkLine o nm a act sh tails).data = [] := by rw [hc]
  rw [ht] at hd
  have hlen : (o.data ++ ", ".data ++ nm.data ++ ".".data ++ t).length = 0 := by
    rw [hd]
    rfl
  simp [List.length_append] at hlen

theorem mkLine_contains_there (o a act : String) (sh : Bool) (tails : List String) :
    strIn "there" (mkLine o "there" a act sh tails) = true := by
  obtain ⟨t, ht⟩ := mkLine_data o "there" a act sh tails
  rw [strIn_iff, ht]
  exact ⟨o.data ++ ", ".data, ".".data ++ t, by simp⟩

theorem getPhrase_fst (rand : Draws) (ctx : Ctx) (recent : List String) :
    (getPhrase rand ctx recent).1 =
      if recent.contains (draw1 rand ctx) then draw2 rand ctx recent
      else draw1 rand ctx := rfl

theorem getPhrase_snd (rand : Draws) (ctx : Ctx) (recent : List String) :
    (getPhrase rand ctx recent).2 = dqAppend 24 recent (getPhrase rand ctx recent).1 := by
  rw [getPhrase_fst]
  rfl

/-- Every line `get_phrase` can produce is some `mkLine` with the resolved
name in the name slot. -/
theorem getPhrase_line_shape (rand : Draws) (ctx : Ctx) (recent : List String) :
    ∃ (o a act : String) (sh : Bool) (tails : List String),
      (getPhrase rand ctx recent).1 = mkLine o (orDefault ctx.name "there") a act sh tails := by
  rw [getPhrase_fst]
  by_cases hc : recent.contains (draw1 rand ctx) = true
  · rw [if_pos hc]
    exact ⟨_, _, _, _, _, rfl⟩
  · rw [if_neg hc]
    exact ⟨_, _, _, _, _, rfl⟩

/-- C9 (confirmed): `get_phrase` is total (the Lean model is a total
function; every pool it draws from is a non-empty literal and the fallbacks
for `tod`/`emotion`/`name` are unconditional, so no library call can fail),
always returns a non-empty string, and when the `name` key is absent the
result contains the default address term `"there"`. -/
theorem phrase_total_nonempty (rand : Draws) (ctx : Ctx) (recent : List String) :
    (getPhrase rand ctx recent).1 ≠ "" ∧
    (ctx.name = none → strIn "there" (getPhrase rand ctx recent).1 = true) := by
  obtain ⟨o, a, act, sh, tails, hshape⟩ := getPhrase_line_shape rand ctx recent
  constructor
  · rw [hshape]
    exact mkLine_ne_empty _ _ _ _ _ _
  · intro hn
    rw [hshape, hn]
    exact mkLine_contains_there o a act sh tails

theorem phrase_total_nonempty_witness :
    (getPhrase ⟨0, 0, 0, 0, false, 0, 0, 0, false, 0, 0⟩ {} []).1 ≠ "" ∧
    strIn "there" (getPhrase ⟨0, 0, 0, 0, false, 0, 0, 0, false, 0, 0⟩ {} []).1 = true :=
  ⟨(phrase_total_nonempty ⟨0, 0, 0, 0, false, 0, 0, 0, false, 0, 0⟩ {} []).1,
   (phrase_total_nonempty ⟨0, 0, 0, 0, false, 0, 0, 0, false, 0, 0⟩ {} []).2 rfl⟩

theorem chooseNonrepeat_eq (cands recent : List String) (i : Nat) :
    chooseNonrepeat cands recent i =
      if (cands.filter fun c => !(recent.contains c)).isEmpty then pick cands i
      else pick (cands.filter fun c => !(recent.contains c)) i := rfl

theorem pick_mem (l : List String) (i : Nat) (h : l ≠ []) : pick l i ∈ l := by
  have hlen : 0 < l.length := List.length_pos.mpr h
  have hlt : i % l.length < l.length := Nat.mod_lt _ hlen
  rw [pick, List.getD_eq_getElem l "" hlt]
  exact List.getElem_mem hlt

/-- C8 (confirmed): The novelty guard: a first-line collision with the
recent memory switches to the single regenerated line `draw2` (whose affect
comes from `_choose_nonrepeat`, preferring candidates not in the memory and
falling back to the whole pool, and whose action duration is redrawn); no
second retry happens — the final line is recorded into the memory
unconditionally, which never exceeds capacity 24 and evicts the oldest entry
when full. -/
theorem phrase_novelty_retry (rand : Draws) (ctx : Ctx) (recent : List String) :
    (recent.contains (draw1 rand ctx) = true →
      (getPhrase rand ctx recent).1 = draw2 rand ctx recent) ∧
    (recent.contains (draw1 rand ctx) = false →
      (getPhrase rand ctx recent).1 = draw1 rand ctx) ∧
    (getPhrase rand ctx recent).2 = dqAppend 24 recent (getPhrase rand ctx recent).1 ∧
    (recent.length ≤ 24 → (getPhrase rand ctx recent).2.length ≤ 24) ∧
    (recent.length = 24 →
      (getPhrase rand ctx recent).2 = recent.drop 1 ++ [(getPhrase rand ctx recent).1]) ∧
    (∀ (cands : List String) (i : Nat), cands ≠ [] →
      chooseNonrepeat cands recent i ∈ cands ∧
      ((cands.filter fun c => !(recent.contains c)) ≠ [] →
        chooseNonrepeat cands recent i ∈ cands.filter fun c => !(recent.contains c))) := by
  refine ⟨?_, ?_, getPhrase_snd rand ctx recent, ?_, ?_, ?_⟩
  · intro hc
    rw [getPhrase_fst, if_pos hc]
  · intro hc
    rw [getPhrase_fst, if_neg (by rw [hc]; exact Bool.false_ne_true)]
  · intro hlen
    rw [getPhrase_snd]
    exact dqAppend_length_le 24 recent _ hlen
  · intro hlen
    rw [getPhrase_snd]
    exact dqAppend_full 24 recent _ (by omega) hlen
  · intro cands i hne
    rw [chooseNonrepeat_eq]
    by_cases hnov : (cands.filter fun c => !(recent.contains c)).isEmpty = true
    · rw [if_pos hnov]
      exact ⟨pick_mem cands i hne,
        fun hfil => absurd (List.isEmpty_iff.mp hnov) hfil⟩
    · have hfne : (cands.filter fun c => !(recent.contains c)) ≠ [] := by
        intro h
        exact hnov (by rw [h]; rfl)
      rw [if_neg hnov]
      exact ⟨List.filter_subset' cands (pick_mem _ i hfne), fun _ => pick_mem _ i hfne⟩

theorem phrase_novelty_retry_witness :
    (getPhrase ⟨1, 1, 1, 1, true, 1, 1, 1, true, 1, 1⟩ {} []).1 =
      draw1 ⟨1, 1, 1, 1, true, 1, 1, 1, true, 1, 1⟩ {} ∧
    (getPhrase ⟨1, 1, 1, 1, true, 1, 1, 1, true, 1, 1⟩ {} []).2 =
      dqAppend 24 [] (getPhrase ⟨1, 1, 1, 1, true, 1, 1, 1, true, 1, 1⟩ {} []).1 ∧
    chooseNonrepeat ["a", "b"] [] 0 ∈ (["a", "b"] : List String) :=
  ⟨(phrase_novelty_retry ⟨1, 1, 1, 1, true, 1, 1, 1, true, 1, 1⟩ {} []).2.1 rfl,
   (phrase_novelty_retry ⟨1, 1, 1, 1, true, 1, 1, 1, true, 1, 1⟩ {} []).2.2.1,
   ((phrase_novelty_retry ⟨1, 1, 1, 1, true, 1, 1, 1, true, 1, 1⟩ {} []).2.2.2.2.2
      ["a", "b"] 0 (by decide)).1⟩

/-! ## Session orchestrator (`scripts/ai_mirror.py`, class `AIMirror`)

The loop body of `AIMirror.run` is modelled per iteration: the mood signal,
the captured utterance and the wall-clock are inputs; `print`/TTS calls are
recorded as events (`Ev.log` for console writes, `Ev.audible` for a call into
the audible-output collaborator `utils.sound.say`); the AI reply collaborator
is a record of the two call shapes the code can make.  A Python exception
escaping the loop body is `Ctl.crash`. -/

/-- A Python exception class, as far as the dispatch code distinguishes them:
`except TypeError` is handled separately from `except Exception`. -/
inductive PyErr
  | typeError
  | otherError
deriving DecidableEq, Repr

/-- The `self.ai` collaborator: `reply2` is `self.ai.reply(list(self.ctx),
user)`; `reply1` is the one-argument compatibility call `self.ai.reply(user)`.
`Except.ok none` models a call that returns `None`. -/
structure Responder where
  reply2 : List String → String → Except PyErr (Option String)
  reply1 : String → Except PyErr (Option String)

/-- Observable output actions of one loop iteration. -/
inductive Ev
  | log (s : String)
  | audible (s : String)
deriving DecidableEq, Repr

def Ev.isLog : Ev → Bool
  | Ev.log _ => true
  | Ev.audible _ => false

/-- Loop control after one iteration: continue, `break`, or an uncaught
exception unwinding out of the loop body. -/
inductive Ctl
  | cont
  | halt
  | crash
deriving DecidableEq, Repr

/-- Module-level `say` (`ai_mirror.py` lines 64-72): always prints `[TTS]`,
then invokes the TTS collaborator when one is available (`tts`); TTS failures
are swallowed, so the invocation itself is the observable. -/
def sayEvs (tts : Bool) (text : String) : List Ev :=
  Ev.log ("[TTS] " ++ text) :: (if tts then [Ev.audible text] else [])

/-- Model of `AIMirror._speak` (`ai_mirror.py` lines 229-233): gated by `self.muted` —
when muted only the `[TTS muted]` console line is produced. -/
def speakEvs (tts muted : Bool) (text : String) : List Ev :=
  if muted then [Ev.log ("[TTS muted] " ++ text)] else sayEvs tts text

/-- Mutable state of `AIMirror.run` across iterations: the `self` fields
`muted`, `moods` (deque maxlen 12), `ctx` (deque maxlen 12) and the loop
locals `timer_deadline` (absolute wall-clock seconds, `None` when unset)
and `paused`. -/
structure OrchState where
  muted : Bool
  moods : List String
  ctx : List String
  timerDeadline : Option Nat
  paused : Bool
deriving DecidableEq, Repr

/-- The state at `AIMirror.__init__` / loop entry. -/
def orch0 : OrchState := ⟨false, [], [], none, false⟩

/-- Model of `_offline_answer(user, mood)` (`ai_mirror.py` lines 191-206); `timeStr`
stands for `time.strftime("%H:%M")`. -/
def pyOffline (user : String) (mood : Option String) (timeStr : String) : String :=
  let u := pyStrip (pyLower user)
  if u = "" then "I didn\x27t catch that. Try again?"
  else if strIn "weather" u || strIn "temperature" u then
    "I can\x27t check live weather yet, but it looks like a good day to drink water and stretch."
  else if strIn "time" u then "It\x27s " ++ timeStr ++ "."
  else if strIn "name" u then "I\x27m your AI mirror."
  else if strIn "camera" u then
    "The camera is on for face detection; say \x27quit\x27 to exit."
  else
    match mood with
    | some m => "You look a bit " ++ m ++ " to me. How can I help?"
    | none => "Okay."

/-- The AI reply attempt (`ai_mirror.py` lines 337-345):
```
reply = None
if self.ai is not None:
    try:
        reply = self.ai.reply(list(self.ctx), user)
    except TypeError:
        reply = self.ai.reply(user)   # NOT inside any try
    except Exception:
        reply = None
```
An exception raised by the one-argument retry is uncaught (`Except.error`). -/
def replyOf (ai : Option Responder) (ctx : List String) (user : String) :
    Except Unit (Option String) :=
  match ai with
  | none => Except.ok none
  | some R =>
    match R.reply2 ctx user with
    | Except.ok r => Except.ok r
    | Except.error PyErr.typeError =>
      match R.reply1 user with
      | Except.ok r => Except.ok r
      | Except.error _ => Except.error ()
    | Except.error PyErr.otherError => Except.ok none

/-- Model of `"".join(c for c in lower if c.isdigit()) or "25"` then `int(...)`
(`ai_mirror.py` line 304): all digits of the utterance joined, default 25. -/
def parseTimerN (lower : String) : Nat :=
  let ds := lower.data.filter Char.isDigit
  if ds.isEmpty then 25 else digitsToNat ds

/-- Command dispatch on one recognized utterance (`ai_mirror.py` lines
284-352), from the `lower = user.lower()` line to the end of the loop body. -/
def dispatch (ai : Option Responder) (tts : Bool) (timeStr : String) (now : Nat)
    (mood : Option String) (user : String) (s : OrchState) :
    OrchState × List Ev × Ctl :=
  let lower := pyLower user
  if strIn "quit" lower || strIn "goodbye" lower then
    (s, speakEvs tts s.muted "Goodbye.", Ctl.halt)
  else if pyStrip lower = "mute" then
    ({ s with muted := true }, [Ev.log "[VOICE] muted."], Ctl.cont)
  else if pyStrip lower = "unmute" then
    ({ s with muted := false }, speakEvs tts false "Okay, I can speak again.", Ctl.cont)
  else if pyStartsWith lower "start timer" then
    let n := parseTimerN lower
    ({ s with timerDeadline := some (now + n), paused := false },
     speakEvs tts s.muted ("Timer set for " ++ toString n ++ " seconds."), Ctl.cont)
  else if strIn "pause timer" lower then
    match s.timerDeadline with
    | some _ => ({ s with paused := true }, speakEvs tts s.muted "Timer paused.", Ctl.cont)
    | none => (s, speakEvs tts s.muted "No running timer.", Ctl.cont)
  else if strIn "resume timer" lower then
    match s.timerDeadline, s.paused with
    | some _, true => ({ s with paused := false }, speakEvs tts s.muted "Timer resumed.", Ctl.cont)
    | _, _ => (s, speakEvs tts s.muted "No paused timer.", Ctl.cont)
  else if strIn "status" lower then
    match s.moods.getLast? with
    | some m => (s, speakEvs tts s.muted ("I think you\x27re " ++ m ++ "."), Ctl.cont)
    | none => (s, speakEvs tts s.muted "I\x27m running fine.", Ctl.cont)
  else
    match replyOf ai s.ctx user with
    | Except.error _ => (s, [], Ctl.crash)
    | Except.ok ro =>
      let reply := ro.getD (pyOffline user mood timeStr)
      ({ s with ctx := dqAppend 12 (dqAppend 12 s.ctx user) reply },
       speakEvs tts s.muted reply, Ctl.cont)

/-- One full iteration of the `while True` loop (`ai_mirror.py` lines
252-352): mood sensing and logging, the deadline check for the inline timer,
the prompt, utterance capture (`none` or the empty string mean nothing was
heard — `if not user: continue`), then dispatch.  The optional OpenCV preview
window (`cv2.imshow` and the `q` key) is hardware UI outside the modelled
collaborators and is omitted. -/
def moodStep (mood : Option String) (s : OrchState) : OrchState × List Ev :=
  match mood with
  | some m => ({ s with moods := dqAppend 12 s.moods m }, [Ev.log ("[MOOD] " ++ m)])
  | none => (s, [])

/-- The inline-deadline completion check (`ai_mirror.py` lines 273-277):
`if timer_deadline and not paused: if time.time() >= timer_deadline: ...`. -/
def timerCheck (tts : Bool) (now : Nat) (s : OrchState) : OrchState × List Ev :=
  match s.timerDeadline with
  | some d =>
    if !s.paused && d ≤ now then
      ({ s with timerDeadline := none }, speakEvs tts s.muted "Timer done.")
    else (s, [])
  | none => (s, [])

def runStep (ai : Option Responder) (tts : Bool) (timeStr : String) (now : Nat)
    (mood : Option String) (utt : Option String) (s : OrchState) :
    OrchState × List Ev × Ctl :=
  let m1 := moodStep mood s
  let t1 := timerCheck tts now m1.1
  let promptEvs := speakEvs tts t1.1.muted "Say something! (Speak clearly for ~5 seconds...)"
  match utt with
  | none =>
    (t1.1, m1.2 ++ t1.2 ++ promptEvs ++ [Ev.log "[VOICE] Timeout: nothing heard."],
     Ctl.cont)
  | some u =>
    if u = "" then
      (t1.1, m1.2 ++ t1.2 ++ promptEvs ++ [Ev.log "[VOICE] Timeout: nothing heard."],
       Ctl.cont)
    else
      let d := dispatch ai tts timeStr now mood u t1.1
      (d.1, m1.2 ++ t1.2 ++ promptEvs ++ [Ev.log ("[VOICE] Recognized: " ++ u)] ++ d.2.1,
       d.2.2)

/-- The whole program state: the orchestrator plus the state of the
repository's `PomodoroTimer` class.  `ai_mirror.py` never imports, constructs
or calls `utils.timer.PomodoroTimer` — its "timer" is the bare wall-clock
deadline local — so a dispatch step leaves any `PomodoroTimer` untouched. -/
structure SysState where
  orch : OrchState
  timer : PT
deriving DecidableEq, Repr

def sys0 : SysState := ⟨orch0, PT.init⟩

/-- A dispatch step lifted to the whole program state. -/
def sysDispatch (ai : Option Responder) (tts : Bool) (timeStr : String) (now : Nat)
    (mood : Option String) (user : String) (s : SysState) :
    SysState × List Ev × Ctl :=
  let d := dispatch ai tts timeStr now mood user s.orch
  (⟨d.1, s.timer⟩, d.2.1, d.2.2)

/-! ### Claim C5 -/

theorem speakEvs_muted_all_log (tts : Bool) (t : String) :
    (speakEvs tts true t).all Ev.isLog = true := rfl

theorem dispatch_muted (ai : Option Responder) (tts : Bool) (timeStr : String) (now : Nat)
    (mood : Option String) (user : String) (s : OrchState)
    (hm : s.muted = true) (hu : pyStrip (pyLower user) ≠ "unmute") :
    (dispatch ai tts timeStr now mood user s).2.1.all Ev.isLog = true ∧
    (dispatch ai tts timeStr now mood user s).1.muted = true := by
  unfold dispatch
  dsimp only
  split_ifs with h1 h2 h3 h4 h5 h6
  · exact ⟨by rw [hm]; rfl, hm⟩
  · exact ⟨rfl, rfl⟩
  · exact ⟨by rw [hm]; rfl, hm⟩
  · cases hd : s.timerDeadline <;> exact ⟨by rw [hm]; rfl, hm⟩
  · cases hd : s.timerDeadline <;> cases hp : s.paused <;> exact ⟨by rw [hm]; rfl, hm⟩
  · cases hmo : s.moods.getLast? <;> exact ⟨by rw [hm]; rfl, hm⟩
  · cases hr : replyOf ai s.ctx user with
    | error e => exact ⟨rfl, hm⟩
    | ok ro => exact ⟨by rw [hm]; rfl, hm⟩

theorem moodStep_muted (mood : Option String) (s : OrchState) :
    (moodStep mood s).1.muted = s.muted ∧ (moodStep mood s).2.all Ev.isLog = true := by
  cases mood <;> exact ⟨rfl, rfl⟩

theorem timerCheck_muted (tts : Bool) (now : Nat) (s : OrchState) (hm : s.muted = true) :
    (timerCheck tts now s).1.muted = true ∧ (timerCheck tts now s).2.all Ev.isLog = true := by
  unfold timerCheck
  cases hd : s.timerDeadline with
  | none => exact ⟨hm, rfl⟩
  | some d =>
    dsimp only
    by_cases hc : (!s.paused && decide (d ≤ now)) = true
    · rw [if_pos hc]
      exact ⟨hm, by rw [hm]; rfl⟩
    · rw [if_neg hc]
      exact ⟨hm, rfl⟩

theorem runStep_muted (ai : Option Responder) (tts : Bool) (timeStr : String) (now : Nat)
    (mood : Option String) (utt : Option String) (s : OrchState) (hm : s.muted = true)
    (hu : ∀ u, utt = some u → pyStrip (pyLower u) ≠ "unmute") :
    (runStep ai tts timeStr now mood utt s).2.1.all Ev.isLog = true ∧
    (runStep ai tts timeStr now mood utt s).1.muted = true := by
  obtain ⟨hm1, hl1⟩ := moodStep_muted mood s
  obtain ⟨hm2, hl2⟩ := timerCheck_muted tts now (moodStep mood s).1 (by rw [hm1, hm])
  unfold runStep
  cases utt with
  | none =>
    dsimp only
    refine ⟨?_, hm2⟩
    simp [List.all_append, hl1, hl2, hm2, speakEvs_muted_all_log, Ev.isLog]
  | some u =>
    dsimp only
    by_cases hue : u = ""
    · rw [if_pos hue]
      refine ⟨?_, hm2⟩
      simp [List.all_append, hl1, hl2, hm2, speakEvs_muted_all_log, Ev.isLog]
    · rw [if_neg hue]
      obtain ⟨hdl, hdm⟩ := dispatch_muted ai tts timeStr now mood u
        (timerCheck tts now (moodStep mood s).1).1 hm2 (hu u rfl)
      refine ⟨?_, hdm⟩
      simp [List.all_append, hl1, hl2, hm2, hdl, speakEvs_muted_all_log, Ev.isLog]

/-- C5 (confirmed): The exact utterance `"mute"` sets `muted` and produces
only the console line `[VOICE] muted.` — no spoken confirmation; while muted,
a whole loop iteration (mood log, timer announcement, prompt, dispatch of any
utterance other than `"unmute"`) emits only console/log events, never an
audible-output invocation, and leaves `muted` set; the exact utterance
`"unmute"` clears `muted` and speaks an audible confirmation. -/
theorem orch_mute_gating :
    (∀ (ai : Option Responder) (tts : Bool) (timeStr : String) (now : Nat)
        (mood : Option String) (s : OrchState),
      dispatch ai tts timeStr now mood "mute" s =
        ({ s with muted := true }, [Ev.log "[VOICE] muted."], Ctl.cont)) ∧
    (∀ (ai : Option Responder) (tts : Bool) (timeStr : String) (now : Nat)
        (mood : Option String) (utt : Option String) (s : OrchState),
      s.muted = true → (∀ u, utt = some u → pyStrip (pyLower u) ≠ "unmute") →
      (runStep ai tts timeStr now mood utt s).2.1.all Ev.isLog = true ∧
      (runStep ai tts timeStr now mood utt s).1.muted = true) ∧
    (∀ (ai : Option Responder) (timeStr : String) (now : Nat)
        (mood : Option String) (s : OrchState),
      dispatch ai true timeStr now mood "unmute" s =
        ({ s with muted := false },
         [Ev.log "[TTS] Okay, I can speak again.", Ev.audible "Okay, I can speak again."],
         Ctl.cont)) :=
  ⟨fun _ _ _ _ _ _ => rfl, runStep_muted, fun _ _ _ _ _ => rfl⟩

theorem orch_mute_gating_witness :
    dispatch none true "12:00" 0 none "mute" orch0 =
      ({ orch0 with muted := true }, [Ev.log "[VOICE] muted."], Ctl.cont) ∧
    ((runStep none true "12:00" 0 none (some "how are you")
        { orch0 with muted := true }).2.1.all Ev.isLog = true ∧
     (runStep none true "12:00" 0 none (some "how are you")
        { orch0 with muted := true }).1.muted = true) ∧
    dispatch none true "12:00" 0 none "unmute" { orch0 with muted := true } =
      ({ orch0 with muted := false },
       [Ev.log "[TTS] Okay, I can speak again.", Ev.audible "Okay, I can speak again."],
       Ctl.cont) :=
  ⟨orch_mute_gating.1 none true "12:00" 0 none orch0,
   orch_mute_gating.2.1 none true "12:00" 0 none (some "how are you")
     { orch0 with muted := true } rfl
     (by intro u h; injection h with h; rw [← h]; decide),
   orch_mute_gating.2.2 none "12:00" 0 none { orch0 with muted := true }⟩

/-! ### Claim C2 -/

/-- A reply collaborator that raises `TypeError` on every call (both call
shapes). -/
def Rtype : Responder :=
  ⟨fun _ _ => Except.error PyErr.typeError, fun _ => Except.error PyErr.typeError⟩

/-- C2 (counterexample): When the reply collaborator raises `TypeError` on
every call, the `except TypeError` handler re-calls `self.ai.reply(user)`
outside any `try` (`ai_mirror.py` lines 341-343), so the second exception
unwinds out of the loop body: the dispatch of "what time is it" crashes
instead of falling back to the offline answer. -/
theorem orch_reply_crash_cex :
    (dispatch (some Rtype) true "12:00" 0 none "what time is it" orch0).2.2 = Ctl.crash :=
  rfl

/-- C2 (amended): Exceptions from the two-argument reply call are caught:
a non-`TypeError` exception is converted to `reply = None`; a `TypeError`
triggers the one-argument compatibility retry whose own exception is *not*
caught and terminates the session.  When the collaborator raises only
non-`TypeError` exceptions, the loop body completes normally and the
utterance "what time is it" yields the offline time answer — a non-empty
spoken reply containing a digit. -/
theorem orch_reply_fallback_amended (R : Responder) (tts : Bool) (now hr mn : Nat)
    (mood : Option String) (s : OrchState)
    (hR : ∀ c u, R.reply2 c u = Except.error PyErr.otherError)
    (hh : hr < 24) (hm2 : mn < 60) :
    dispatch (some R) tts (fmtHM hr mn) now mood "what time is it" s =
      ({ s with ctx := (dqAppend 12 (dqAppend 12 s.ctx "what time is it")
          ("It\x27s " ++ fmtHM hr mn ++ ".")) },
       speakEvs tts s.muted ("It\x27s " ++ fmtHM hr mn ++ "."), Ctl.cont) ∧
    hasDigit ("It\x27s " ++ fmtHM hr mn ++ ".") = true ∧
    ("It\x27s " ++ fmtHM hr mn ++ ".") ≠ "" := by
  refine ⟨?_, ?_, ?_⟩
  · have key : dispatch (some R) tts (fmtHM hr mn) now mood "what time is it" s =
        match replyOf (some R) s.ctx "what time is it" with
        | Except.error _ => (s, [], Ctl.crash)
        | Except.ok ro =>
          let reply := ro.getD (pyOffline "what time is it" mood (fmtHM hr mn))
          ({ s with ctx := (dqAppend 12 (dqAppend 12 s.ctx "what time is it") reply) },
           speakEvs tts s.muted reply, Ctl.cont) := rfl
    have hrep : replyOf (some R) s.ctx "what time is it" = Except.ok none := by
      simp [replyOf, hR]
    rw [key, hrep]
    rfl
  · unfold hasDigit
    rw [string_data_append, string_data_append, List.any_append, List.any_append]
    have hf := fmtHM_hasDigit hr mn hh
    unfold hasDigit at hf
    rw [hf]
    simp
  · intro hc
    have hd := congrArg String.data hc
    rw [string_data_append, string_data_append] at hd
    simp at hd

theorem orch_reply_fallback_amended_witness :
    dispatch (some ⟨fun _ _ => Except.error PyErr.otherError,
        fun _ => Except.error PyErr.otherError⟩) true (fmtHM 12 34) 0 none
        "what time is it" orch0 =
      ({ orch0 with ctx := (dqAppend 12 (dqAppend 12 orch0.ctx "what time is it")
          ("It\x27s " ++ fmtHM 12 34 ++ ".")) },
       speakEvs true orch0.muted ("It\x27s " ++ fmtHM 12 34 ++ "."), Ctl.cont) ∧
    hasDigit ("It\x27s " ++ fmtHM 12 34 ++ ".") = true ∧
    ("It\x27s " ++ fmtHM 12 34 ++ ".") ≠ "" :=
  orch_reply_fallback_amended
    ⟨fun _ _ => Except.error PyErr.otherError, fun _ => Except.error PyErr.otherError⟩
    true 0 12 34 none orch0 (fun _ _ => rfl) (by decide) (by decide)

/-! ### Claim C3 -/

/-- C3 (counterexample): After "start timer 10" the orchestrator sets
only the inline wall-clock deadline (`timer_deadline = time.time() + 10`,
`paused = False`); it never imports or calls `utils.timer.PomodoroTimer`, so
the only phase-bearing timer state in the program remains `"idle"` — no
timer phase is ever set to `"work"`. -/
theorem orch_start_timer_phase_cex :
    (sysDispatch none true "12:00" 100 none "start timer 10" sys0).1.timer.phase = "idle" ∧
    ¬ (sysDispatch none true "12:00" 100 none "start timer 10" sys0).1.timer.phase = "work" ∧
    (sysDispatch none true "12:00" 100 none "start timer 10" sys0).1.orch.timerDeadline =
      some 110 ∧
    (sysDispatch none true "12:00" 100 none "start timer 10" sys0).1.orch.paused = false :=
  ⟨rfl, by decide, rfl, rfl⟩

/-- C3 (amended): For every utterance starting with "start timer" that
matches no earlier dispatch rule, the orchestrator joins all digits of the
utterance into a whole number of seconds `n` (default 25 when there are no
digits), sets the inline countdown `timer_deadline = now + n` (so the
remaining time is `n` seconds), clears `paused`, and speaks a confirmation
containing the parsed `n`; the inline timer is a bare deadline with no phase,
and the `PomodoroTimer` component is never invoked. -/
theorem orch_start_timer_amended (ai : Option Responder) (tts : Bool) (timeStr : String)
    (now : Nat) (mood : Option String) (user : String) (s : OrchState)
    (hstart : pyStartsWith (pyLower user) "start timer" = true)
    (hq : strIn "quit" (pyLower user) = false)
    (hg : strIn "goodbye" (pyLower user) = false)
    (hmu : pyStrip (pyLower user) ≠ "mute")
    (hun : pyStrip (pyLower user) ≠ "unmute") :
    dispatch ai tts timeStr now mood user s =
      ({ s with timerDeadline := some (now + parseTimerN (pyLower user)), paused := false },
       speakEvs tts s.muted
         ("Timer set for " ++ toString (parseTimerN (pyLower user)) ++ " seconds."),
       Ctl.cont) ∧
    strIn (toString (parseTimerN (pyLower user)))
      ("Timer set for " ++ toString (parseTimerN (pyLower user)) ++ " seconds.") = true := by
  constructor
  · unfold dispatch
    dsimp only
    rw [hq, hg, hstart]
    rw [if_neg (by simp), if_neg hmu, if_neg hun, if_pos rfl]
  · rw [strIn_iff]
    refine ⟨"Timer set for ".data, " seconds.".data, ?_⟩
    simp [string_data_append, List.append_assoc]

theorem orch_start_timer_amended_witness :
    dispatch none true "12:00" 100 none "start timer 10" orch0 =
      ({ orch0 with
          timerDeadline := some (100 + parseTimerN (pyLower "start timer 10")),
          paused := false },
       speakEvs true orch0.muted
         ("Timer set for " ++ toString (parseTimerN (pyLower "start timer 10")) ++ " seconds."),
       Ctl.cont) ∧
    strIn (toString (parseTimerN (pyLower "start timer 10")))
      ("Timer set for " ++ toString (parseTimerN (pyLower "start timer 10")) ++ " seconds.") =
      true :=
  orch_start_timer_amended none true "12:00" 100 none "start timer 10" orch0
    (by decide) (by decide) (by decide) (by decide) (by decide)
